import Mathlib

/-!
Shallow embedding of the flash-sale concurrency/reservation engine of the
repository (backend Redis fast path and Mongo reservation slow path), with
theorems checking the specification's claims against it.

Fast path: `src/backend/dist/utils/luaScripts.js` (CHECK_AND_PURCHASE_SCRIPT,
INIT_SALE_SCRIPT), `src/backend/src/services/saleService.ts`.
Slow path: `src/controllers/flashSaleController.ts` together with the
`FlashSalePurchase` / `FlashSaleReservation` Mongoose models and
`src/config/flashSaleConfig.ts`.
-/

namespace FlashSale

/-! ## Fast path: the Redis stock ledger (CHECK_AND_PURCHASE_SCRIPT) -/

/-- Outcome of one run of the atomic Lua purchase script: the string
`ALREADY_PURCHASED`, the string `SOLD_OUT`, or the remaining stock number. -/
inductive PurchaseResult where
  | alreadyPurchased : PurchaseResult
  | soldOut : PurchaseResult
  | purchased (remaining : Int) : PurchaseResult
deriving DecidableEq, Repr

/-- The Redis state the purchase script touches: the `sale:stock` counter
(an integer string in Redis, so `Int` here) and the `sale:purchases` set of
member strings. Redis sets hold each member once; `SADD` in the script only
runs after a failed `SISMEMBER`, so a plain list of the added entries is an
exact model. -/
structure Ledger where
  stock : Int
  purchases : List String
deriving DecidableEq, Repr

/-- The member string the script builds: `user_id .. ':' .. timestamp`
(luaScripts.js line 20). -/
def userEntry (userId timestamp : String) : String :=
  userId ++ ":" ++ timestamp

/-- CHECK_AND_PURCHASE_SCRIPT (luaScripts.js lines 10-41), run atomically by
Redis: SISMEMBER of `user_id:timestamp`; if present return ALREADY_PURCHASED;
else if stock <= 0 return SOLD_OUT; else DECR stock, SADD the entry, and
return the decremented stock. -/
def checkAndPurchase (l : Ledger) (userId timestamp : String) :
    PurchaseResult × Ledger :=
  let entry := userEntry userId timestamp
  if l.purchases.contains entry then
    (PurchaseResult.alreadyPurchased, l)
  else if l.stock ≤ 0 then
    (PurchaseResult.soldOut, l)
  else
    (PurchaseResult.purchased (l.stock - 1),
      { stock := l.stock - 1, purchases := entry :: l.purchases })

/-- Ledger state set up by INIT_SALE_SCRIPT: stock := totalStock, no
purchase-set entries. -/
def initLedger (totalStock : Int) : Ledger :=
  { stock := totalStock, purchases := [] }

/-- Run a sequence of purchase attempts (userId, timestamp) through the
script; Redis serializes script executions, so a sequential fold is the
exact semantics. Returns the final ledger and the number of successful
claims. -/
def runAttempts : Ledger → List (String × String) → Ledger × Nat
  | l, [] => (l, 0)
  | l, (u, t) :: rest =>
    let step := checkAndPurchase l u t
    let next := runAttempts step.2 rest
    (next.1,
      next.2 + (match step.1 with
        | PurchaseResult.purchased _ => 1
        | _ => 0))

/-! ## Fast path: sale configuration and status (saleService.ts) -/

/-- The configuration passed to SaleService.initializeSale; times as
millisecond epochs (JS Date comparisons are numeric). -/
structure SaleConfig where
  startTime : Int
  endTime : Int
  totalStock : Int
  productName : String
deriving DecidableEq, Repr

/-- The Redis keys saleService writes: `sale:config` hash and `sale:stock`
counter; `none` means the key is absent. -/
structure RedisState where
  config : Option SaleConfig
  stock : Option Int
deriving DecidableEq, Repr

/-- SaleService.initializeSale (saleService.ts lines 15-55): validate
end > start and totalStock > 0 synchronously, throwing before any write;
then atomically (INIT_SALE_SCRIPT) write the four config fields and set the
stock counter to totalStock. The returned state is the store after the
call; on error it is the input state, untouched. -/
def initSale (cfg : SaleConfig) (s : RedisState) :
    Except String Unit × RedisState :=
  if cfg.endTime ≤ cfg.startTime then
    (Except.error "End time must be after start time", s)
  else if cfg.totalStock ≤ 0 then
    (Except.error "Total stock must be positive", s)
  else
    (Except.ok (), { config := some cfg, stock := some cfg.totalStock })

/-- Fast-path sale lifecycle state (types/index.ts SaleStatus). -/
inductive FastStatus where
  | upcoming : FastStatus
  | active : FastStatus
  | ended : FastStatus
  | soldOut : FastStatus
deriving DecidableEq, Repr

/-- The status rule of SaleService.getSaleStatus (saleService.ts lines
74-84): sold_out if remainingStock <= 0, else upcoming if now < startTime,
else ended if now > endTime, else active. A pure function of the current
time, the window, and the remaining stock. -/
def fastSaleStatus (now startTime endTime remainingStock : Int) : FastStatus :=
  if remainingStock ≤ 0 then FastStatus.soldOut
  else if now < startTime then FastStatus.upcoming
  else if endTime < now then FastStatus.ended
  else FastStatus.active

/-! ## Slow path: data model (FlashSalePurchase / FlashSaleReservation) -/

/-- Reservation lifecycle states (FlashSaleReservation.ts status enum). -/
inductive RStatus where
  | reserved : RStatus
  | confirmed : RStatus
  | expired : RStatus
  | cancelled : RStatus
deriving DecidableEq, Repr

/-- A FlashSaleReservation document: Mongo `_id` modelled as a Nat drawn
from the store's id counter; `expiresAt` as a millisecond epoch. -/
structure Reservation where
  rid : Nat
  userId : String
  productId : String
  status : RStatus
  expiresAt : Int
  paymentIntentId : Option String
deriving DecidableEq, Repr

/-- A FlashSalePurchase document (userId, productId, purchasedAt, quantity,
price, stripePaymentIntentId). The schema declares a unique index on
(userId, productId). -/
structure Purchase where
  userId : String
  productId : String
  purchasedAt : Int
  quantity : Nat
  price : Rat
  paymentIntentId : Option String
deriving DecidableEq, Repr

/-- FLASH_SALE_CONFIG (flashSaleConfig.ts): the one sale's product id,
stock limit, window, and flash price. -/
structure FlashConfig where
  productId : String
  totalStock : Nat
  startTime : Int
  endTime : Int
  flashPrice : Rat
deriving DecidableEq, Repr

/-- The Mongo collections the slow path touches, in insertion order, plus a
fresh-id counter for created reservations. -/
structure Store where
  purchases : List Purchase
  reservations : List Reservation
  nextId : Nat
deriving DecidableEq, Repr

/-- Slow-path time-window status (flashSaleConfig.ts getFlashSaleStatus):
upcoming if now < startTime, ended if now > endTime, else active — a pure
function of the clock and the window only. -/
inductive TimeStatus where
  | upcoming : TimeStatus
  | active : TimeStatus
  | ended : TimeStatus
deriving DecidableEq, Repr

/-- getFlashSaleStatus (flashSaleConfig.ts lines 23-28). -/
def flashTimeStatus (cfg : FlashConfig) (now : Int) : TimeStatus :=
  if now < cfg.startTime then TimeStatus.upcoming
  else if cfg.endTime < now then TimeStatus.ended
  else TimeStatus.active

/-- `FlashSalePurchase.findOne({userId, productId})` as a Bool: does any
purchase document match this user and the sale's product? -/
def hasPurchase (cfg : FlashConfig) (u : String) : List Purchase → Bool
  | [] => false
  | p :: rest =>
    if p.userId = u ∧ p.productId = cfg.productId then true
    else hasPurchase cfg u rest

/-- `FlashSaleReservation.findOne({userId, productId, status: 'reserved',
expiresAt: {$gt: now}})`: first (insertion order) live reserved reservation
of this user for the sale's product. -/
def findLiveRes (cfg : FlashConfig) (now : Int) (u : String) :
    List Reservation → Option Reservation
  | [] => none
  | r :: rest =>
    if r.userId = u ∧ r.productId = cfg.productId ∧
        r.status = RStatus.reserved ∧ now < r.expiresAt then some r
    else findLiveRes cfg now u rest

/-- `FlashSalePurchase.countDocuments({productId})`. -/
def countPurchases (cfg : FlashConfig) : List Purchase → Nat
  | [] => 0
  | p :: rest =>
    (if p.productId = cfg.productId then 1 else 0) + countPurchases cfg rest

/-- `FlashSaleReservation.countDocuments({productId, status: 'reserved',
expiresAt: {$gt: now}})`. -/
def countLiveRes (cfg : FlashConfig) (now : Int) : List Reservation → Nat
  | [] => 0
  | r :: rest =>
    (if r.productId = cfg.productId ∧ r.status = RStatus.reserved ∧
        now < r.expiresAt then 1 else 0) + countLiveRes cfg now rest

/-- getEffectiveSoldCount (flashSaleController.ts lines 12-22): purchases
for the product plus live (reserved, unexpired) reservations for it. -/
def getEffectiveSoldCount (cfg : FlashConfig) (now : Int) (s : Store) : Nat :=
  countPurchases cfg s.purchases + countLiveRes cfg now s.reservations

/-- RESERVATION_MINUTES * 60_000 ms (flashSaleController.ts line 10/109). -/
def reservationTTL : Int := 600000

/-! ## Slow path: the orchestrator endpoints (flashSaleController.ts) -/

/-- Outcomes of POST /api/flash-sale/reserve, one per response branch of
reserveItem (HTTP-level userId-presence validation aside). -/
inductive ReserveResult where
  | notStarted : ReserveResult
  | saleEnded : ReserveResult
  | alreadyPurchased : ReserveResult
  | alreadyReserved (r : Reservation) : ReserveResult
  | soldOut : ReserveResult
  | created (r : Reservation) : ReserveResult
deriving DecidableEq, Repr

/-- reserveItem (flashSaleController.ts lines 60-130): reject on upcoming /
ended window; reject already-purchased users; return an existing live
reservation unchanged (idempotent replay); reject as sold out when
getEffectiveSoldCount >= totalStock; otherwise insert a fresh reservation
in state `reserved` expiring at now + 10 minutes. -/
def reserveItem (cfg : FlashConfig) (now : Int) (u : String) (s : Store) :
    ReserveResult × Store :=
  match flashTimeStatus cfg now with
  | TimeStatus.upcoming => (ReserveResult.notStarted, s)
  | TimeStatus.ended => (ReserveResult.saleEnded, s)
  | TimeStatus.active =>
    if hasPurchase cfg u s.purchases then
      (ReserveResult.alreadyPurchased, s)
    else
      match findLiveRes cfg now u s.reservations with
      | some r => (ReserveResult.alreadyReserved r, s)
      | none =>
        if cfg.totalStock ≤ getEffectiveSoldCount cfg now s then
          (ReserveResult.soldOut, s)
        else
          let r : Reservation :=
            { rid := s.nextId, userId := u, productId := cfg.productId,
              status := RStatus.reserved, expiresAt := now + reservationTTL,
              paymentIntentId := none }
          (ReserveResult.created r,
            { s with reservations := s.reservations ++ [r],
                     nextId := s.nextId + 1 })

/-- Outcomes of POST /api/flash-sale/confirm. -/
inductive ConfirmResult where
  | confirmed : ConfirmResult
  | alreadyConfirmed : ConfirmResult
  | reservationExpired : ConfirmResult
  | systemError : ConfirmResult
deriving DecidableEq, Repr

/-- The FlashSalePurchase document confirmPurchase inserts. -/
def mkPurchase (cfg : FlashConfig) (now : Int) (u pid : String) : Purchase :=
  { userId := u, productId := cfg.productId, purchasedAt := now,
    quantity := 1, price := cfg.flashPrice, paymentIntentId := some pid }

/-- `FlashSaleReservation.findByIdAndUpdate(rid, {status: 'confirmed',
stripePaymentIntentId})`. -/
def confirmResById (rid : Nat) (pid : String) (rs : List Reservation) :
    List Reservation :=
  rs.map fun x =>
    if x.rid = rid then
      { x with status := RStatus.confirmed, paymentIntentId := some pid }
    else x

/-- confirmPurchase (flashSaleController.ts lines 136-174). Looks up a live
reserved reservation; if none, replies already-confirmed when a
PurchaseRecord exists, else rejects as expired. If one is found it is first
updated to `confirmed` with the payment reference, then the PurchaseRecord
is inserted in a second, separate write: `failCreate` models that second
write failing with a transient (non duplicate-key) store error, which the
catch block turns into a 500 system error; a duplicate-key collision
(error code 11000, i.e. a purchase for this (userId, productId) already
exists under the unique index) is answered as success/alreadyConfirmed. -/
def confirmPurchase (cfg : FlashConfig) (now : Int) (u pid : String)
    (failCreate : Bool) (s : Store) : ConfirmResult × Store :=
  match findLiveRes cfg now u s.reservations with
  | none =>
    if hasPurchase cfg u s.purchases then
      (ConfirmResult.alreadyConfirmed, s)
    else
      (ConfirmResult.reservationExpired, s)
  | some r =>
    let s1 : Store :=
      { s with reservations := confirmResById r.rid pid s.reservations }
    if failCreate then
      (ConfirmResult.systemError, s1)
    else if hasPurchase cfg u s1.purchases then
      (ConfirmResult.alreadyConfirmed, s1)
    else
      (ConfirmResult.confirmed,
        { s1 with purchases := s1.purchases ++ [mkPurchase cfg now u pid] })

/-- The per-document effect of cancelReservation's updateMany filter
({userId, productId, status: 'reserved'} — no expiry condition): matching
documents get status `cancelled`, all others are untouched. -/
def cancelOne (cfg : FlashConfig) (u : String) (r : Reservation) :
    Reservation :=
  if r.userId = u ∧ r.productId = cfg.productId ∧
      r.status = RStatus.reserved then
    { r with status := RStatus.cancelled }
  else r

/-- cancelReservation (flashSaleController.ts lines 206-217): updateMany
over the reservations, then an unconditional success reply (`true` here). -/
def cancelReservation (cfg : FlashConfig) (u : String) (s : Store) :
    Bool × Store :=
  (true, { s with reservations := s.reservations.map (cancelOne cfg u) })

/-- The stock-related fields of the GET /api/flash-sale/status response. -/
structure StatusResponse where
  status : TimeStatus
  totalStock : Nat
  remaining : Int
  soldOut : Bool
deriving DecidableEq, Repr

/-- getStatus (flashSaleController.ts lines 27-54): time-window status from
getFlashSaleStatus, remaining = max(0, totalStock - getEffectiveSoldCount),
soldOut = (remaining === 0); a pure read — the returned store is the input
store. -/
def getStatus (cfg : FlashConfig) (now : Int) (s : Store) :
    StatusResponse × Store :=
  let soldCount := getEffectiveSoldCount cfg now s
  ({ status := flashTimeStatus cfg now,
     totalStock := cfg.totalStock,
     remaining := max 0 ((cfg.totalStock : Int) - (soldCount : Int)),
     soldOut := max 0 ((cfg.totalStock : Int) - (soldCount : Int)) = 0 }, s)

/-! ## Lemmas about the fast-path ledger -/

/-- One script run never increases the stock counter. -/
lemma checkAndPurchase_stock_mono (l : Ledger) (u t : String) :
    ((checkAndPurchase l u t).2).stock ≤ l.stock := by
  by_cases h1 : userEntry u t ∈ l.purchases
  · simp [checkAndPurchase, h1]
  · by_cases h2 : l.stock ≤ 0
    · simp [checkAndPurchase, h1, h2]
    · simp [checkAndPurchase, h1, h2]

/-- Exact accounting over a trace: final stock plus the number of
successful claims equals the starting stock. -/
lemma runAttempts_stock_add (as : List (String × String)) :
    ∀ l : Ledger,
      ((runAttempts l as).1).stock + (((runAttempts l as).2 : Nat) : Int)
        = l.stock := by
  induction as with
  | nil => intro l; simp [runAttempts]
  | cons a rest ih =>
    intro l
    obtain ⟨u, t⟩ := a
    by_cases h1 : userEntry u t ∈ l.purchases
    · simp [runAttempts, checkAndPurchase, h1]
      simpa using ih l
    · by_cases h2 : l.stock ≤ 0
      · simp [runAttempts, checkAndPurchase, h1, h2]
        simpa using ih l
      · simp [runAttempts, checkAndPurchase, h1, h2]
        have h3 := ih { stock := l.stock - 1,
                        purchases := userEntry u t :: l.purchases }
        push_cast at h3 ⊢
        omega

/-- The stock counter never becomes negative along a trace that starts
nonnegative. -/
lemma runAttempts_stock_nonneg (as : List (String × String)) :
    ∀ l : Ledger, 0 ≤ l.stock → 0 ≤ ((runAttempts l as).1).stock := by
  induction as with
  | nil => intro l h; simpa [runAttempts] using h
  | cons a rest ih =>
    intro l h
    obtain ⟨u, t⟩ := a
    by_cases h1 : userEntry u t ∈ l.purchases
    · simp [runAttempts, checkAndPurchase, h1]
      exact ih l h
    · by_cases h2 : l.stock ≤ 0
      · simp [runAttempts, checkAndPurchase, h1, h2]
        exact ih l h
      · simp [runAttempts, checkAndPurchase, h1, h2]
        refine ih _ ?_
        simp
        omega

/-! ## Claims about the fast path -/

/-- Claim C1 (code bug): the spec says a purchase attempt by a user who
already holds a claim returns ALREADY_PURCHASED with no mutation, so no
user ever gets two claims. The script instead checks set membership of
`userId:timestamp` built from the CURRENT attempt's timestamp, so a retry
at any other timestamp passes the check: from stock 2, user "u" claims at
timestamp "t1" and then again at "t2", ending with two ledger entries and
stock 0. The check only fires when the retry carries the identical
timestamp. This contradicts the repository's own integration test
("should prevent duplicate purchase by same user") and its MockRedis eval,
which matches members by the `userId:` prefix. -/
theorem c1_script_admits_second_claim_for_same_user :
    (checkAndPurchase (initLedger 2) "u" "t1").1
      = PurchaseResult.purchased 1 ∧
    (checkAndPurchase (checkAndPurchase (initLedger 2) "u" "t1").2 "u" "t2").1
      = PurchaseResult.purchased 0 ∧
    ((checkAndPurchase (checkAndPurchase (initLedger 2) "u" "t1").2 "u"
        "t2").2).purchases
      = [userEntry "u" "t2", userEntry "u" "t1"] ∧
    ((checkAndPurchase (checkAndPurchase (initLedger 2) "u" "t1").2 "u"
        "t2").2).stock = 0 ∧
    (checkAndPurchase (checkAndPurchase (initLedger 2) "u" "t1").2 "u" "t1").1
      = PurchaseResult.alreadyPurchased := by
  decide

/-- Claim C2: starting from an initialized sale (stock counter = total,
total > 0), over every sequence of fast-path purchase attempts the counter
stays within 0 ≤ value ≤ total, final counter + number of successful
claims = total (so successful claims never exceed the initial counter
value), and every single script run leaves the counter no larger than it
found it (monotone non-increase; only initSale / reset write it
otherwise). -/
theorem c2_stock_counter_invariants (total : Int) (htotal : 0 < total)
    (as : List (String × String)) :
    0 ≤ ((runAttempts (initLedger total) as).1).stock ∧
    ((runAttempts (initLedger total) as).1).stock ≤ total ∧
    ((runAttempts (initLedger total) as).1).stock
      + (((runAttempts (initLedger total) as).2 : Nat) : Int) = total ∧
    (((runAttempts (initLedger total) as).2 : Nat) : Int) ≤ total ∧
    ∀ (l : Ledger) (u t : String),
      ((checkAndPurchase l u t).2).stock ≤ l.stock := by
  have hadd := runAttempts_stock_add as (initLedger total)
  have hnn := runAttempts_stock_nonneg as (initLedger total)
    (by simp [initLedger]; omega)
  have hstock : (initLedger total).stock = total := rfl
  rw [hstock] at hadd
  refine ⟨hnn, by omega, hadd, by omega,
    fun l u t => checkAndPurchase_stock_mono l u t⟩

/-- Witness for C2 at total = 2 and a concrete three-attempt trace. -/
theorem c2_witness :
    (0 : Int) < 2 ∧
    0 ≤ ((runAttempts (initLedger 2) [("a", "x"), ("b", "x"), ("c", "x")]).1).stock ∧
    ((runAttempts (initLedger 2) [("a", "x"), ("b", "x"), ("c", "x")]).1).stock ≤ 2 ∧
    ((checkAndPurchase { stock := 5, purchases := [] } "a" "x").2).stock ≤ 5 :=
  ⟨by decide,
   (c2_stock_counter_invariants 2 (by decide)
     [("a", "x"), ("b", "x"), ("c", "x")]).1,
   (c2_stock_counter_invariants 2 (by decide)
     [("a", "x"), ("b", "x"), ("c", "x")]).2.1,
   (c2_stock_counter_invariants 2 (by decide)
     [("a", "x"), ("b", "x"), ("c", "x")]).2.2.2.2
     { stock := 5, purchases := [] } "a" "x"⟩

/-- Claim C7: the fast-path status evaluator is a pure function of the
current time, the window, and the remaining stock; sold_out whenever the
remaining stock is zero regardless of the window, else upcoming before
start, ended after end, active otherwise. -/
theorem c7_fast_status_rule (now startT endT remaining : Int) :
    (remaining = 0 →
      fastSaleStatus now startT endT remaining = FastStatus.soldOut) ∧
    (0 < remaining →
      (now < startT →
        fastSaleStatus now startT endT remaining = FastStatus.upcoming) ∧
      (startT ≤ now → endT < now →
        fastSaleStatus now startT endT remaining = FastStatus.ended) ∧
      (startT ≤ now → now ≤ endT →
        fastSaleStatus now startT endT remaining = FastStatus.active)) := by
  unfold fastSaleStatus
  refine ⟨fun h0 => by simp [h0], fun hpos => ⟨?_, ?_, ?_⟩⟩
  · intro h1
    rw [if_neg (by omega), if_pos h1]
  · intro h1 h2
    rw [if_neg (by omega), if_neg (by omega), if_pos h2]
  · intro h1 h2
    rw [if_neg (by omega), if_neg (by omega), if_neg (by omega)]

/-- Witness for C7: stock 0 during the window gives sold_out; stock 3
before the window gives upcoming. -/
theorem c7_witness :
    ((0 : Int) = 0 → fastSaleStatus 50 10 100 0 = FastStatus.soldOut) ∧
    fastSaleStatus 50 10 100 0 = FastStatus.soldOut ∧
    fastSaleStatus 5 10 100 3 = FastStatus.upcoming :=
  ⟨(c7_fast_status_rule 50 10 100 0).1,
   (c7_fast_status_rule 50 10 100 0).1 rfl,
   ((c7_fast_status_rule 5 10 100 3).2 (by decide)).1 (by decide)⟩

/-- Claim C9: initializeSale rejects end ≤ start and non-positive stock
synchronously, writing nothing; a valid configuration is stored with the
stock counter set to the total stock. -/
theorem c9_init_sale_validation (cfg : SaleConfig) (s : RedisState) :
    (cfg.endTime ≤ cfg.startTime →
      initSale cfg s = (Except.error "End time must be after start time", s)) ∧
    (cfg.startTime < cfg.endTime → cfg.totalStock ≤ 0 →
      initSale cfg s = (Except.error "Total stock must be positive", s)) ∧
    (cfg.startTime < cfg.endTime → 0 < cfg.totalStock →
      initSale cfg s =
        (Except.ok (),
         { config := some cfg, stock := some cfg.totalStock })) := by
  unfold initSale
  refine ⟨fun h1 => ?_, fun h1 h2 => ?_, fun h1 h2 => ?_⟩
  · rw [if_pos h1]
  · rw [if_neg (by omega), if_pos h2]
  · rw [if_neg (by omega), if_neg (by omega)]

/-- Witness for C9: a valid config is stored; end ≤ start is rejected with
the store untouched. -/
theorem c9_witness :
    ((0 : Int) < 100 ∧ (0 : Int) < 5 ∧
      initSale { startTime := 0, endTime := 100, totalStock := 5,
                 productName := "p" } { config := none, stock := none } =
        (Except.ok (),
         { config := some { startTime := 0, endTime := 100, totalStock := 5,
                            productName := "p" },
           stock := some 5 })) ∧
    ((100 : Int) ≤ 100 ∧
      initSale { startTime := 100, endTime := 100, totalStock := 5,
                 productName := "p" } { config := none, stock := none } =
        (Except.error "End time must be after start time",
         { config := none, stock := none })) :=
  ⟨⟨by decide, by decide,
    (c9_init_sale_validation
      { startTime := 0, endTime := 100, totalStock := 5, productName := "p" }
      { config := none, stock := none }).2.2 (by decide) (by decide)⟩,
   ⟨by decide,
    (c9_init_sale_validation
      { startTime := 100, endTime := 100, totalStock := 5, productName := "p" }
      { config := none, stock := none }).1 (by decide)⟩⟩

/-! ## Lemmas about the slow-path store -/

/-- A user's own freshly inserted purchase document makes
`hasPurchase` true, wherever it sits in the collection. -/
lemma hasPurchase_append_own (cfg : FlashConfig) (u : String)
    (l : List Purchase) (now : Int) (pid : String) :
    hasPurchase cfg u (l ++ [mkPurchase cfg now u pid]) = true := by
  induction l with
  | nil => simp [hasPurchase, mkPurchase]
  | cons p rest ih =>
    by_cases h : p.userId = u ∧ p.productId = cfg.productId
    · simp [hasPurchase, h]
    · simp only [List.cons_append, hasPurchase, if_neg h]
      exact ih

/-- A reservation returned by the live-reservation lookup is in the
collection. -/
lemma findLiveRes_mem (cfg : FlashConfig) (now : Int) (u : String) :
    ∀ (rs : List Reservation) (r : Reservation),
      findLiveRes cfg now u rs = some r → r ∈ rs := by
  intro rs
  induction rs with
  | nil => intro r h; simp [findLiveRes] at h
  | cons x rest ih =>
    intro r h
    by_cases hx : x.userId = u ∧ x.productId = cfg.productId ∧
        x.status = RStatus.reserved ∧ now < x.expiresAt
    · simp [findLiveRes, hx] at h
      simp [h]
    · simp only [findLiveRes, if_neg hx] at h
      exact List.mem_cons_of_mem x (ih r h)

/-- A reservation returned by the live-reservation lookup matches the
lookup filter: right user, right product, status reserved, unexpired. -/
lemma findLiveRes_props (cfg : FlashConfig) (now : Int) (u : String) :
    ∀ (rs : List Reservation) (r : Reservation),
      findLiveRes cfg now u rs = some r →
      r.userId = u ∧ r.productId = cfg.productId ∧
        r.status = RStatus.reserved ∧ now < r.expiresAt := by
  intro rs
  induction rs with
  | nil => intro r h; simp [findLiveRes] at h
  | cons x rest ih =>
    intro r h
    by_cases hx : x.userId = u ∧ x.productId = cfg.productId ∧
        x.status = RStatus.reserved ∧ now < x.expiresAt
    · simp [findLiveRes, hx] at h
      rw [← h]
      exact hx
    · simp only [findLiveRes, if_neg hx] at h
      exact ih r h

/-- When the live-reservation lookup comes back empty, no reservation in
the collection matches its filter. -/
lemma findLiveRes_none_not (cfg : FlashConfig) (now : Int) (u : String) :
    ∀ rs : List Reservation, findLiveRes cfg now u rs = none →
      ∀ r ∈ rs, ¬(r.userId = u ∧ r.productId = cfg.productId ∧
        r.status = RStatus.reserved ∧ now < r.expiresAt) := by
  intro rs
  induction rs with
  | nil => intro _ r hr; simp at hr
  | cons x rest ih =>
    intro h r hr
    by_cases hx : x.userId = u ∧ x.productId = cfg.productId ∧
        x.status = RStatus.reserved ∧ now < x.expiresAt
    · simp [findLiveRes, hx] at h
    · simp only [findLiveRes, if_neg hx] at h
      rcases List.mem_cons.mp hr with hrx | hrr
      · rw [hrx]; exact hx
      · exact ih h r hrr

/-- reserveItem either leaves the store untouched or — only when the user
had no live reservation — appends exactly one fresh reservation, owned by
the user, in state reserved, expiring at now + TTL. -/
lemma reserveItem_state (cfg : FlashConfig) (now : Int) (u : String)
    (s : Store) :
    (reserveItem cfg now u s).2 = s ∨
    (findLiveRes cfg now u s.reservations = none ∧
     ∃ r : Reservation, r.userId = u ∧ r.productId = cfg.productId ∧
       r.status = RStatus.reserved ∧ r.expiresAt = now + reservationTTL ∧
       ((reserveItem cfg now u s).2).reservations
         = s.reservations ++ [r]) := by
  cases hst : flashTimeStatus cfg now with
  | upcoming => left; simp [reserveItem, hst]
  | ended => left; simp [reserveItem, hst]
  | active =>
    by_cases hp : hasPurchase cfg u s.purchases = true
    · left; simp [reserveItem, hst, hp]
    · cases hf : findLiveRes cfg now u s.reservations with
      | some r => left; simp [reserveItem, hst, hp, hf]
      | none =>
        by_cases hsold : cfg.totalStock ≤ getEffectiveSoldCount cfg now s
        · left; simp [reserveItem, hst, hp, hf, hsold]
        · right
          refine ⟨rfl, ⟨⟨s.nextId, u, cfg.productId, RStatus.reserved,
            now + reservationTTL, none⟩, rfl, rfl, rfl, rfl, ?_⟩⟩
          simp [reserveItem, hst, hp, hf, hsold]

/-! ## Claims about the slow path -/

/-- Claim C3: confirming the same reservation twice sequentially yields
exactly one PurchaseRecord and two success replies; a confirm with no live
reservation but an existing PurchaseRecord replies success
(already-confirmed); a uniqueness collision on the insert is treated as
success; only with neither a live reservation nor a PurchaseRecord does
confirm reject as reservation-expired. -/
theorem c3_duplicate_confirm_idempotent (cfg : FlashConfig)
    (now now2 : Int) (u pid pid2 : String) (s : Store) :
    (∀ r0 : Reservation, findLiveRes cfg now u s.reservations = some r0 →
      hasPurchase cfg u s.purchases = false →
      ((confirmPurchase cfg now u pid false s).1
          = ConfirmResult.confirmed ∧
       ((confirmPurchase cfg now u pid false s).2).purchases
          = s.purchases ++ [mkPurchase cfg now u pid] ∧
       (confirmPurchase cfg now2 u pid2 false
          (confirmPurchase cfg now u pid false s).2).1
          = ConfirmResult.alreadyConfirmed ∧
       ((confirmPurchase cfg now2 u pid2 false
          (confirmPurchase cfg now u pid false s).2).2).purchases
          = s.purchases ++ [mkPurchase cfg now u pid])) ∧
    (findLiveRes cfg now u s.reservations = none →
      hasPurchase cfg u s.purchases = true →
      confirmPurchase cfg now u pid false s
        = (ConfirmResult.alreadyConfirmed, s)) ∧
    (∀ r0 : Reservation, findLiveRes cfg now u s.reservations = some r0 →
      hasPurchase cfg u s.purchases = true →
      ((confirmPurchase cfg now u pid false s).1
          = ConfirmResult.alreadyConfirmed ∧
       ((confirmPurchase cfg now u pid false s).2).purchases
          = s.purchases)) ∧
    (findLiveRes cfg now u s.reservations = none →
      hasPurchase cfg u s.purchases = false →
      confirmPurchase cfg now u pid false s
        = (ConfirmResult.reservationExpired, s)) := by
  refine ⟨?_, ?_, ?_, ?_⟩
  · intro r0 hf hp
    have e1 : confirmPurchase cfg now u pid false s =
        (ConfirmResult.confirmed,
         { purchases := s.purchases ++ [mkPurchase cfg now u pid],
           reservations := confirmResById r0.rid pid s.reservations,
           nextId := s.nextId }) := by
      simp [confirmPurchase, hf, hp]
    rw [e1]
    refine ⟨rfl, rfl, ?_⟩
    cases hf2 : findLiveRes cfg now2 u
        (confirmResById r0.rid pid s.reservations) with
    | none => simp [confirmPurchase, hf2, hasPurchase_append_own]
    | some r1 => simp [confirmPurchase, hf2, hasPurchase_append_own]
  · intro hf hp
    simp [confirmPurchase, hf, hp]
  · intro r0 hf hp
    simp [confirmPurchase, hf, hp]
  · intro hf hp
    simp [confirmPurchase, hf, hp]

/-- Witness for C3: a live reservation and no prior purchase; the first
confirm succeeds, the replayed confirm replies already-confirmed. -/
theorem c3_witness :
    findLiveRes ⟨"p", 1, 0, 1000, 3⟩ 10 "u"
        [⟨0, "u", "p", RStatus.reserved, 700000, none⟩]
      = some ⟨0, "u", "p", RStatus.reserved, 700000, none⟩ ∧
    hasPurchase ⟨"p", 1, 0, 1000, 3⟩ "u" [] = false ∧
    (confirmPurchase ⟨"p", 1, 0, 1000, 3⟩ 10 "u" "pay1" false
        ⟨[], [⟨0, "u", "p", RStatus.reserved, 700000, none⟩], 1⟩).1
      = ConfirmResult.confirmed ∧
    (confirmPurchase ⟨"p", 1, 0, 1000, 3⟩ 20 "u" "pay1" false
        (confirmPurchase ⟨"p", 1, 0, 1000, 3⟩ 10 "u" "pay1" false
          ⟨[], [⟨0, "u", "p", RStatus.reserved, 700000, none⟩], 1⟩).2).1
      = ConfirmResult.alreadyConfirmed :=
  ⟨by decide, by decide,
   ((c3_duplicate_confirm_idempotent ⟨"p", 1, 0, 1000, 3⟩ 10 20 "u" "pay1"
        "pay1" ⟨[], [⟨0, "u", "p", RStatus.reserved, 700000, none⟩], 1⟩).1
      ⟨0, "u", "p", RStatus.reserved, 700000, none⟩
      (by decide) (by decide)).1,
   ((c3_duplicate_confirm_idempotent ⟨"p", 1, 0, 1000, 3⟩ 10 20 "u" "pay1"
        "pay1" ⟨[], [⟨0, "u", "p", RStatus.reserved, 700000, none⟩], 1⟩).1
      ⟨0, "u", "p", RStatus.reserved, 700000, none⟩
      (by decide) (by decide)).2.2.1⟩

/-- Claim C4 counterexample: confirm is NOT atomic in its failure effect.
With a live reservation present and the PurchaseRecord insert failing with
a transient (non duplicate-key) error, confirm reports a system error and
leaves the reservation marked confirmed while no PurchaseRecord exists for
the (user, item) — the partial state the claim says is unreachable. -/
theorem c4_confirm_partial_state_counterexample :
    confirmPurchase ⟨"p", 1, 0, 1000, 3⟩ 10 "u" "pay1" true
        ⟨[], [⟨0, "u", "p", RStatus.reserved, 700000, none⟩], 1⟩
      = (ConfirmResult.systemError,
         ⟨[], [⟨0, "u", "p", RStatus.confirmed, 700000, some "pay1"⟩], 1⟩) ∧
    hasPurchase ⟨"p", 1, 0, 1000, 3⟩ "u" [] = false := by
  decide

/-- Claim C4 (amended): on success the reservation is set to confirmed
with the payment reference and the PurchaseRecord is appended; a
uniqueness collision is treated as success-already-achieved; a confirm
that finds no live reservation mutates nothing — but the two writes are
separate, so when the PurchaseRecord insert fails with any other error the
reservation stays marked confirmed with no matching PurchaseRecord (the
partial state is observable). -/
theorem c4_confirm_effects_amended (cfg : FlashConfig) (now : Int)
    (u pid : String) (s : Store) :
    (∀ r0 : Reservation, findLiveRes cfg now u s.reservations = some r0 →
      hasPurchase cfg u s.purchases = false →
      confirmPurchase cfg now u pid false s =
        (ConfirmResult.confirmed,
         { purchases := s.purchases ++ [mkPurchase cfg now u pid],
           reservations := confirmResById r0.rid pid s.reservations,
           nextId := s.nextId })) ∧
    (∀ r0 : Reservation, findLiveRes cfg now u s.reservations = some r0 →
      hasPurchase cfg u s.purchases = true →
      confirmPurchase cfg now u pid false s =
        (ConfirmResult.alreadyConfirmed,
         { s with reservations := confirmResById r0.rid pid s.reservations })) ∧
    (∀ r0 : Reservation, findLiveRes cfg now u s.reservations = some r0 →
      (confirmPurchase cfg now u pid true s =
        (ConfirmResult.systemError,
         { s with reservations := confirmResById r0.rid pid s.reservations }) ∧
       ((confirmPurchase cfg now u pid true s).2).purchases = s.purchases ∧
       { r0 with status := RStatus.confirmed, paymentIntentId := some pid }
         ∈ ((confirmPurchase cfg now u pid true s).2).reservations)) ∧
    (findLiveRes cfg now u s.reservations = none →
      ∀ b : Bool, ((confirmPurchase cfg now u pid b s).2) = s) := by
  refine ⟨?_, ?_, ?_, ?_⟩
  · intro r0 hf hp
    simp [confirmPurchase, hf, hp]
  · intro r0 hf hp
    simp [confirmPurchase, hf, hp]
  · intro r0 hf
    have e1 : confirmPurchase cfg now u pid true s =
        (ConfirmResult.systemError,
         { s with reservations := confirmResById r0.rid pid s.reservations }) := by
      simp [confirmPurchase, hf]
    refine ⟨e1, by rw [e1], ?_⟩
    rw [e1]
    have hm := findLiveRes_mem cfg now u s.reservations r0 hf
    have hmap : (fun x : Reservation =>
        if x.rid = r0.rid then
          { x with status := RStatus.confirmed, paymentIntentId := some pid }
        else x) r0
        ∈ s.reservations.map (fun x =>
          if x.rid = r0.rid then
            { x with status := RStatus.confirmed,
                     paymentIntentId := some pid }
          else x) :=
      List.mem_map_of_mem _ hm
    simpa [confirmResById] using hmap
  · intro hf b
    by_cases hp : hasPurchase cfg u s.purchases = true
    · simp [confirmPurchase, hf, hp]
    · simp [confirmPurchase, hf, hp]

/-- Witness for C4's amended theorem: the success path appends the
purchase and confirms the reservation. -/
theorem c4_witness :
    findLiveRes ⟨"p", 1, 0, 1000, 3⟩ 10 "u"
        [⟨0, "u", "p", RStatus.reserved, 700000, none⟩]
      = some ⟨0, "u", "p", RStatus.reserved, 700000, none⟩ ∧
    hasPurchase ⟨"p", 1, 0, 1000, 3⟩ "u" [] = false ∧
    confirmPurchase ⟨"p", 1, 0, 1000, 3⟩ 10 "u" "pay1" false
        ⟨[], [⟨0, "u", "p", RStatus.reserved, 700000, none⟩], 1⟩
      = (ConfirmResult.confirmed,
         { purchases := [mkPurchase ⟨"p", 1, 0, 1000, 3⟩ 10 "u" "pay1"],
           reservations := confirmResById 0 "pay1"
             [⟨0, "u", "p", RStatus.reserved, 700000, none⟩],
           nextId := 1 }) :=
  ⟨by decide, by decide,
   (c4_confirm_effects_amended ⟨"p", 1, 0, 1000, 3⟩ 10 "u" "pay1"
      ⟨[], [⟨0, "u", "p", RStatus.reserved, 700000, none⟩], 1⟩).1
     ⟨0, "u", "p", RStatus.reserved, 700000, none⟩ (by decide) (by decide)⟩

/-- Claim C5: EffectiveSoldCount is the purchase count plus the count of
live (reserved, unexpired) reservations; during an active sale a caller
with no PurchaseRecord and no live reservation is rejected as sold out
exactly when EffectiveSoldCount ≥ total stock, and otherwise a reservation
is created in state reserved expiring at now + 10 minutes (600000 ms). -/
theorem c5_effective_sold_count_gates_reserve (cfg : FlashConfig)
    (now : Int) (u : String) (s : Store) :
    getEffectiveSoldCount cfg now s =
      countPurchases cfg s.purchases + countLiveRes cfg now s.reservations ∧
    (flashTimeStatus cfg now = TimeStatus.active →
     hasPurchase cfg u s.purchases = false →
     findLiveRes cfg now u s.reservations = none →
     ((cfg.totalStock ≤ getEffectiveSoldCount cfg now s →
        reserveItem cfg now u s = (ReserveResult.soldOut, s)) ∧
      (getEffectiveSoldCount cfg now s < cfg.totalStock →
        reserveItem cfg now u s =
          (ReserveResult.created
            ⟨s.nextId, u, cfg.productId, RStatus.reserved,
              now + 600000, none⟩,
           { s with
             reservations := s.reservations ++
               [⟨s.nextId, u, cfg.productId, RStatus.reserved,
                 now + 600000, none⟩],
             nextId := s.nextId + 1 })))) := by
  refine ⟨rfl, fun hst hp hf => ⟨fun hsold => ?_, fun hlt => ?_⟩⟩
  · simp [reserveItem, hst, hp, hf, hsold]
  · have hns : ¬(cfg.totalStock ≤ getEffectiveSoldCount cfg now s) :=
      not_le.mpr hlt
    simp [reserveItem, hst, hp, hf, hns, reservationTTL]

/-- Witness for C5: an empty store during the window admits a reservation;
with the single unit already purchased by another user, reserve rejects as
sold out. -/
theorem c5_witness :
    flashTimeStatus ⟨"p", 1, 0, 1000, 3⟩ 10 = TimeStatus.active ∧
    hasPurchase ⟨"p", 1, 0, 1000, 3⟩ "u" [] = false ∧
    findLiveRes ⟨"p", 1, 0, 1000, 3⟩ 10 "u" [] = none ∧
    getEffectiveSoldCount ⟨"p", 1, 0, 1000, 3⟩ 10 ⟨[], [], 0⟩ < 1 ∧
    reserveItem ⟨"p", 1, 0, 1000, 3⟩ 10 "u" ⟨[], [], 0⟩ =
      (ReserveResult.created
        ⟨0, "u", "p", RStatus.reserved, 600010, none⟩,
       ⟨[], [⟨0, "u", "p", RStatus.reserved, 600010, none⟩], 1⟩) ∧
    (1 : Nat) ≤ getEffectiveSoldCount ⟨"p", 1, 0, 1000, 3⟩ 10
      ⟨[⟨"w", "p", 5, 1, 3, none⟩], [], 0⟩ ∧
    reserveItem ⟨"p", 1, 0, 1000, 3⟩ 10 "u"
        ⟨[⟨"w", "p", 5, 1, 3, none⟩], [], 0⟩
      = (ReserveResult.soldOut, ⟨[⟨"w", "p", 5, 1, 3, none⟩], [], 0⟩) :=
  ⟨by decide, by decide, by decide, by decide,
   by
    have h := ((c5_effective_sold_count_gates_reserve ⟨"p", 1, 0, 1000, 3⟩
        10 "u" ⟨[], [], 0⟩).2 (by decide) (by decide) (by decide)).2
        (by decide)
    simpa using h,
   by decide,
   ((c5_effective_sold_count_gates_reserve ⟨"p", 1, 0, 1000, 3⟩ 10 "u"
      ⟨[⟨"w", "p", 5, 1, 3, none⟩], [], 0⟩).2 (by decide) (by decide)
      (by decide)).1 (by decide)⟩

/-- Claim C6: a reserve call by a user who already holds a live
reservation (sale active, no prior purchase) returns that reservation
unchanged with success and mutates nothing; and two sequential reserve
calls by the same user, the second within the first's TTL window, add at
most one reservation row between them. -/
theorem c6_reserve_idempotent (cfg : FlashConfig) (t1 t2 : Int)
    (u : String) (s : Store) :
    (∀ r0 : Reservation, flashTimeStatus cfg t1 = TimeStatus.active →
      hasPurchase cfg u s.purchases = false →
      findLiveRes cfg t1 u s.reservations = some r0 →
      reserveItem cfg t1 u s = (ReserveResult.alreadyReserved r0, s)) ∧
    (t2 < t1 + reservationTTL →
      (((reserveItem cfg t2 u ((reserveItem cfg t1 u s).2)).2).reservations
          = s.reservations ∨
       ∃ r : Reservation,
         ((reserveItem cfg t2 u ((reserveItem cfg t1 u s).2)).2).reservations
           = s.reservations ++ [r])) := by
  refine ⟨?_, ?_⟩
  · intro r0 hst hp hf
    simp [reserveItem, hst, hp, hf]
  · intro ht
    rcases reserveItem_state cfg t1 u s with h1 |
      ⟨hf1, r, hru, hrp, hrs, hre, hrapp⟩
    · rw [h1]
      rcases reserveItem_state cfg t2 u s with h2 |
        ⟨_, r2, _, _, _, _, happ2⟩
      · left; rw [h2]
      · right; exact ⟨r2, happ2⟩
    · rcases reserveItem_state cfg t2 u ((reserveItem cfg t1 u s).2) with h2 |
        ⟨hf2, r2, _, _, _, _, _⟩
      · right; exact ⟨r, by rw [h2, hrapp]⟩
      · exfalso
        have hmem : r ∈ ((reserveItem cfg t1 u s).2).reservations := by
          rw [hrapp]; simp
        exact findLiveRes_none_not cfg t2 u _ hf2 r hmem
          ⟨hru, hrp, hrs, by rw [hre]; omega⟩

/-- Witness for C6: with a live reservation in the store, reserve replays
it unchanged. -/
theorem c6_witness :
    flashTimeStatus ⟨"p", 1, 0, 1000, 3⟩ 10 = TimeStatus.active ∧
    hasPurchase ⟨"p", 1, 0, 1000, 3⟩ "u" [] = false ∧
    findLiveRes ⟨"p", 1, 0, 1000, 3⟩ 10 "u"
        [⟨0, "u", "p", RStatus.reserved, 700000, none⟩]
      = some ⟨0, "u", "p", RStatus.reserved, 700000, none⟩ ∧
    reserveItem ⟨"p", 1, 0, 1000, 3⟩ 10 "u"
        ⟨[], [⟨0, "u", "p", RStatus.reserved, 700000, none⟩], 1⟩
      = (ReserveResult.alreadyReserved
          ⟨0, "u", "p", RStatus.reserved, 700000, none⟩,
         ⟨[], [⟨0, "u", "p", RStatus.reserved, 700000, none⟩], 1⟩) :=
  ⟨by decide, by decide, by decide,
   (c6_reserve_idempotent ⟨"p", 1, 0, 1000, 3⟩ 10 20 "u"
      ⟨[], [⟨0, "u", "p", RStatus.reserved, 700000, none⟩], 1⟩).1
     ⟨0, "u", "p", RStatus.reserved, 700000, none⟩
     (by decide) (by decide) (by decide)⟩

/-- Claim C8: the reservation-path status read reports the pure
time-window status (independent of the store contents), remaining =
max(0, totalStock − EffectiveSoldCount), the sold-out flag true exactly
when remaining is zero, and performs no mutation. -/
theorem c8_status_pure_read (cfg : FlashConfig) (now : Int) (s : Store) :
    ((getStatus cfg now s).1).status = flashTimeStatus cfg now ∧
    ((getStatus cfg now s).1).remaining
      = max 0 ((cfg.totalStock : Int)
          - (getEffectiveSoldCount cfg now s : Int)) ∧
    (((getStatus cfg now s).1).soldOut = true ↔
      ((getStatus cfg now s).1).remaining = 0) ∧
    (getStatus cfg now s).2 = s ∧
    (∀ s' : Store,
      ((getStatus cfg now s').1).status = ((getStatus cfg now s).1).status) := by
  refine ⟨rfl, rfl, ?_, rfl, fun s' => rfl⟩
  simp [getStatus]

/-- Claim C10: cancel-reservation always replies success (a no-op when the
user holds nothing), sets status cancelled on every reserved reservation
of that (user, item) — with no expiry condition, so expired-but-unswept
reserved rows are included — and leaves non-reserved reservations, other
users' and other products' reservations, and all purchases unchanged. -/
theorem c10_cancel_semantics (cfg : FlashConfig) (u : String) (s : Store) :
    (cancelReservation cfg u s).1 = true ∧
    ((cancelReservation cfg u s).2).purchases = s.purchases ∧
    ((cancelReservation cfg u s).2).nextId = s.nextId ∧
    ((cancelReservation cfg u s).2).reservations
      = s.reservations.map (cancelOne cfg u) ∧
    (∀ r : Reservation, r.userId = u → r.productId = cfg.productId →
      r.status = RStatus.reserved →
      cancelOne cfg u r = { r with status := RStatus.cancelled }) ∧
    (∀ r : Reservation,
      ¬(r.userId = u ∧ r.productId = cfg.productId ∧
        r.status = RStatus.reserved) →
      cancelOne cfg u r = r) := by
  refine ⟨rfl, rfl, rfl, rfl, ?_, ?_⟩
  · intro r h1 h2 h3
    simp [cancelOne, h1, h2, h3]
  · intro r h
    unfold cancelOne
    rw [if_neg h]

/-- Witness for C10: an already-expired reserved row of the user is still
cancelled; a confirmed row is untouched. -/
theorem c10_witness :
    ("u" : String) = "u" ∧ ("p" : String) = "p" ∧
    RStatus.reserved = RStatus.reserved ∧
    cancelOne ⟨"p", 1, 0, 1000, 3⟩ "u"
        ⟨0, "u", "p", RStatus.reserved, 5, none⟩
      = ⟨0, "u", "p", RStatus.cancelled, 5, none⟩ ∧
    ¬((⟨1, "u", "p", RStatus.confirmed, 5, none⟩ : Reservation).userId = "u" ∧
      (⟨1, "u", "p", RStatus.confirmed, 5, none⟩ : Reservation).productId = "p" ∧
      (⟨1, "u", "p", RStatus.confirmed, 5, none⟩ : Reservation).status
        = RStatus.reserved) ∧
    cancelOne ⟨"p", 1, 0, 1000, 3⟩ "u"
        ⟨1, "u", "p", RStatus.confirmed, 5, none⟩
      = ⟨1, "u", "p", RStatus.confirmed, 5, none⟩ ∧
    (cancelReservation ⟨"p", 1, 0, 1000, 3⟩ "u"
        ⟨[], [⟨0, "u", "p", RStatus.reserved, 5, none⟩], 1⟩).1 = true :=
  ⟨rfl, rfl, rfl,
   (c10_cancel_semantics ⟨"p", 1, 0, 1000, 3⟩ "u"
      ⟨[], [⟨0, "u", "p", RStatus.reserved, 5, none⟩], 1⟩).2.2.2.2.1
     ⟨0, "u", "p", RStatus.reserved, 5, none⟩ rfl rfl rfl,
   by decide,
   (c10_cancel_semantics ⟨"p", 1, 0, 1000, 3⟩ "u"
      ⟨[], [⟨0, "u", "p", RStatus.reserved, 5, none⟩], 1⟩).2.2.2.2.2
     ⟨1, "u", "p", RStatus.confirmed, 5, none⟩ (by decide),
   (c10_cancel_semantics ⟨"p", 1, 0, 1000, 3⟩ "u"
      ⟨[], [⟨0, "u", "p", RStatus.reserved, 5, none⟩], 1⟩).1⟩

end FlashSale
